import Mathlib

/-!
Verification development for the multi-agent chat pipeline of `src/index.tsx`.

The source is a single React component whose `handleSubmit` handler runs a
three-stage pipeline over a hosted generation service: a fan-out of 4
identical initial requests, a fan-out of 4 refinement requests (each agent
sees its own initial answer plus the other three), and a single synthesis
request; on success the final text is appended to the message list as a
model turn, and on any error a fixed generic notice turn is appended.

The embedding below translates that handler and its prompt construction
into pure Lean functions.  The external generation service is an oracle
`gen : Nat -> GenRequest -> Except ServiceError String`; the `Nat` is the
issue index of the call within the run (calls 0..3 are the stage-1 fan-out
in task order, 4..7 the stage-2 fan-out, 8 the synthesis call), which lets
an oracle model a mocked client returning distinct answers to the four
identical stage-1 requests.  `Promise.all` over the eagerly created request
batch is `joinAll` over the per-call results: it succeeds with the results
in task order iff every call succeeded.  The returned `trace` records every
request issued to the service, in issue order.
-/

namespace MultiAgent

/-- The model name constant `MODEL_NAME` of the source. -/
def MODEL_NAME : String := "gemini-2.5-pro"

/-- The stage-1 system instruction `INITIAL_SYSTEM_INSTRUCTION` of the source. -/
def INITIAL_SYSTEM_INSTRUCTION : String :=
  "You are an expert-level AI assistant. Your task is to provide a comprehensive, accurate, and well-reasoned initial response to the user\x27s query. Aim for clarity and depth. Note: Your response is an intermediate step for other AI agents and will not be shown to the user. Be concise and focus on core information without unnecessary verbosity."

/-- The stage-2 system instruction `REFINEMENT_SYSTEM_INSTRUCTION` of the source. -/
def REFINEMENT_SYSTEM_INSTRUCTION : String :=
  "You are a reflective AI agent. Your primary task is to find flaws. Critically analyze your previous response and the responses from other AI agents. Focus specifically on identifying factual inaccuracies, logical fallacies, omissions, or any other weaknesses. Your goal is to generate a new, revised response that corrects these specific errors and is free from the flaws you have identified. Note: This refined response is for a final synthesizer agent, not the user, so be direct and prioritize accuracy over conversational style."

/-- The stage-3 system instruction `SYNTHESIZER_SYSTEM_INSTRUCTION` of the source. -/
def SYNTHESIZER_SYSTEM_INSTRUCTION : String :=
  "You are a master synthesizer AI. Your PRIMARY GOAL is to write the final, complete response to the user\x27s query. You will be given the user\x27s query and four refined responses from other AI agents. Your task is to analyze these responses—identifying their strengths to incorporate and their flaws to discard. Use this analysis to construct the single best possible answer for the user. Do not just critique the other agents; your output should BE the final, polished response."

/-- One element of the `parts` array of a message or content payload. -/
structure Part where
  text : String
deriving DecidableEq

/-- The `Message` interface of the source: a chat turn held in React state.
The source restricts `role` to the union type of the strings user and model;
the embedding carries the role as the string itself. -/
structure Message where
  role : String
  parts : List Part
deriving DecidableEq

/-- The `Content` payload type of the generation API (same shape as `Message`). -/
structure Content where
  role : String
  parts : List Part
deriving DecidableEq

/-- The conversion applied by `currentMessages.slice(0, -1).map(msg => ({role: msg.role, parts: msg.parts}))`. -/
def toContent (m : Message) : Content :=
  ⟨m.role, m.parts⟩

/-- An error from the external generation service (the spec names it ServiceError). -/
structure ServiceError where
  message : String
deriving DecidableEq

/-- One request to `ai.models.generateContent`: model name, ordered contents,
and the `config.systemInstruction` string. -/
structure GenRequest where
  model : String
  contents : List Content
  systemInstruction : String
deriving DecidableEq

/-- The JavaScript WhiteSpace and LineTerminator code points removed by
`String.prototype.trim`. -/
def jsWhitespace (c : Char) : Bool :=
  c = ' ' || c = '\t' || c = '\n' || c = '\r' || c.toNat = 0x0b || c.toNat = 0x0c ||
  c.toNat = 0xa0 || c.toNat = 0x1680 || (0x2000 ≤ c.toNat && c.toNat ≤ 0x200a) ||
  c.toNat = 0x2028 || c.toNat = 0x2029 || c.toNat = 0x202f || c.toNat = 0x205f ||
  c.toNat = 0x3000 || c.toNat = 0xfeff

/-- JavaScript `String.prototype.trim`: strip leading and trailing whitespace. -/
def jsTrim (s : String) : String :=
  ⟨((s.data.dropWhile jsWhitespace).reverse.dropWhile jsWhitespace).reverse⟩

/-- Fallback for a missing array element: JavaScript string interpolation
renders `undefined` as this text.  The pipeline only indexes lists of the
required length, so the fallback is never reached by the orchestration code. -/
def undefinedString : String := "undefined"

/-- The current user turn `{ role: user, parts: [{ text: userInput }] }`. -/
def currentUserTurn (userInput : String) : Content :=
  ⟨"user", [⟨userInput⟩]⟩

/-- Stage-1 request batch: `Array(4).fill(0).map(() => generateContent({...}))`
builds four identical requests carrying the prior history plus the current
user turn, under the initial-stage system instruction. -/
def initialReqs (mainChatHistory : List Content) (userInput : String) : List GenRequest :=
  (List.replicate 4 (0 : Nat)).map (fun _ =>
    ⟨MODEL_NAME, mainChatHistory ++ [currentUserTurn userInput], INITIAL_SYSTEM_INSTRUCTION⟩)

/-- The selection `initialAnswers.filter((_, i) => i !== index)`: all answers
whose position differs from `index`, in ascending position order. -/
def otherAnswersAt (initialAnswers : List String) (index : Nat) : List String :=
  ((initialAnswers.enum).filter (fun q => q.1 != index)).map Prod.snd

/-- The `refinementContext` template string of the source, embedding the
own answer first and the three other answers in their list order. -/
def refinementContext (initialAnswer : String) (otherAnswers : List String) : String :=
  "My initial response was: \"" ++ initialAnswer ++
  "\". The other agents responded with: 1. \"" ++ otherAnswers.getD 0 undefinedString ++
  "\" 2. \"" ++ otherAnswers.getD 1 undefinedString ++
  "\" 3. \"" ++ otherAnswers.getD 2 undefinedString ++
  "\". Based on this context, critically re-evaluate and provide a new, improved response to the original query."

/-- Stage-2 request batch: `initialAnswers.map((initialAnswer, index) => ...)`
builds one refinement request per agent, whose single new user turn is the
query followed by the internal-context marker and the refinement context. -/
def refinementReqs (mainChatHistory : List Content) (userInput : String)
    (initialAnswers : List String) : List GenRequest :=
  initialAnswers.enum.map (fun p =>
    let index := p.1
    let initialAnswer := p.2
    let otherAnswers := otherAnswersAt initialAnswers index
    let rc := refinementContext initialAnswer otherAnswers
    ⟨MODEL_NAME,
     mainChatHistory ++ [⟨"user", [⟨userInput ++ "\n\n---INTERNAL CONTEXT---\n" ++ rc⟩]⟩],
     REFINEMENT_SYSTEM_INSTRUCTION⟩)

/-- The `synthesizerContext` template string of the source, embedding the four
refined answers in their stage-2 index order. -/
def synthesizerContext (refinedAnswers : List String) : String :=
  "Here are the four refined responses to the user\x27s query. Your task is to synthesize them into the best single, final answer.\n\nRefined Response 1:\n\"" ++
  refinedAnswers.getD 0 undefinedString ++
  "\"\n\nRefined Response 2:\n\"" ++ refinedAnswers.getD 1 undefinedString ++
  "\"\n\nRefined Response 3:\n\"" ++ refinedAnswers.getD 2 undefinedString ++
  "\"\n\nRefined Response 4:\n\"" ++ refinedAnswers.getD 3 undefinedString ++ "\""

/-- The single stage-3 synthesis request of the source. -/
def synthesizerReq (mainChatHistory : List Content) (userInput : String)
    (refinedAnswers : List String) : GenRequest :=
  ⟨MODEL_NAME,
   mainChatHistory ++
     [⟨"user", [⟨userInput ++ "\n\n---INTERNAL CONTEXT---\n" ++ synthesizerContext refinedAnswers⟩]⟩],
   SYNTHESIZER_SYSTEM_INSTRUCTION⟩

/-- Issue every request of a batch, in task order; `start` is the issue index
of the first call within the run.  Mirrors the eager creation of all batch
promises before the join. -/
def runCalls (gen : Nat → GenRequest → Except ServiceError String) (start : Nat)
    (reqs : List GenRequest) : List (Except ServiceError String) :=
  reqs.enum.map (fun p => gen (start + p.1) p.2)

/-- The join barrier of `Promise.all`: all results in task order, or a failure
as soon as any call of the batch failed. -/
def joinAll : List (Except ServiceError String) → Except ServiceError (List String)
  | [] => Except.ok []
  | (Except.error e) :: _ => Except.error e
  | (Except.ok s) :: rest => (joinAll rest).map (fun l => s :: l)

/-- The fixed turn appended by the catch branch of the source. -/
def errorFallbackMessage : Message :=
  ⟨"model", [⟨"Sorry, I encountered an error. Please try again."⟩]⟩

/-- Result of one submission: the new React message list, the requests issued
to the service in issue order, and whether the catch branch ran. -/
structure RunResult where
  messages : List Message
  trace : List GenRequest
  failed : Bool
deriving DecidableEq

/-- The three-stage pipeline body of the `try` block, given the history
snapshot `mainChatHistory` taken at run start: stage-1 fan-out, join, stage-2
fan-out, join, synthesis call.  Returns the final text or the first error,
together with every request issued. -/
def runPipeline (gen : Nat → GenRequest → Except ServiceError String)
    (mainChatHistory : List Content) (userInput : String) :
    Except ServiceError String × List GenRequest :=
  let reqs1 := initialReqs mainChatHistory userInput
  match joinAll (runCalls gen 0 reqs1) with
  | Except.error e => (Except.error e, reqs1)
  | Except.ok initialAnswers =>
    let reqs2 := refinementReqs mainChatHistory userInput initialAnswers
    match joinAll (runCalls gen 4 reqs2) with
    | Except.error e => (Except.error e, reqs1 ++ reqs2)
    | Except.ok refinedAnswers =>
      let req3 := synthesizerReq mainChatHistory userInput refinedAnswers
      match gen 8 req3 with
      | Except.error e => (Except.error e, reqs1 ++ reqs2 ++ [req3])
      | Except.ok finalResponseText => (Except.ok finalResponseText, reqs1 ++ reqs2 ++ [req3])

/-- The `handleSubmit` handler of the source.  A blank input returns before
touching state; otherwise the user turn is appended, the history snapshot
`mainChatHistory` is the new list without its last element, the pipeline
runs, and either the final text or the fixed error notice is appended. -/
def handleSubmit (gen : Nat → GenRequest → Except ServiceError String)
    (messages : List Message) (userInput : String) : RunResult :=
  if jsTrim userInput = "" then ⟨messages, [], false⟩
  else
    let userMessage : Message := ⟨"user", [⟨userInput⟩]⟩
    let currentMessages := messages ++ [userMessage]
    let mainChatHistory := currentMessages.dropLast.map toContent
    match runPipeline gen mainChatHistory userInput with
    | (Except.error _, trace) => ⟨currentMessages ++ [errorFallbackMessage], trace, true⟩
    | (Except.ok finalResponseText, trace) =>
      ⟨currentMessages ++ [⟨"model", [⟨finalResponseText⟩]⟩], trace, false⟩

/-- All turn texts of a message list, in order. -/
def historyTexts (msgs : List Message) : List String :=
  (msgs.map (fun m => m.parts.map Part.text)).flatten

/-- Number of model-role (Agent) turns in a message list. -/
def modelTurnCount (msgs : List Message) : Nat :=
  (msgs.filter (fun m => m.role == "model")).length

/-- An oracle that plays back a fixed response list by call issue index,
modelling a mocked completion client. -/
def mockDefault : String := ""

/-- Mocked completion client: call `n` of the run answers with entry `n` of
the response list. -/
def mockGen (responses : List String) : Nat → GenRequest → Except ServiceError String :=
  fun n _ => Except.ok (responses.getD n mockDefault)

/-- An oracle whose every call fails. -/
def failGen : Nat → GenRequest → Except ServiceError String :=
  fun _ _ => Except.error ⟨"service unavailable"⟩

/-- Sample non-blank query used by concrete witnesses. -/
def sampleQuery : String := "hi"

/-- Second sample query. -/
def sampleQuery2 : String := "hello"

/-- Sample non-empty service reply used by concrete witnesses. -/
def sampleReply : String := "x"

/-- An oracle whose every call succeeds with the sample reply. -/
def okGen : Nat → GenRequest → Except ServiceError String :=
  fun _ _ => Except.ok sampleReply

/-- A join succeeds with as many results as the batch had calls. -/
theorem joinAll_ok_length (l : List (Except ServiceError String)) :
    ∀ ys, joinAll l = Except.ok ys → ys.length = l.length := by
  induction l with
  | nil =>
    intro ys h
    cases h
    rfl
  | cons x rest ih =>
    intro ys h
    cases x with
    | error e => simp [joinAll] at h
    | ok s =>
      simp only [joinAll] at h
      cases hr : joinAll rest with
      | error e => rw [hr] at h; simp [Except.map] at h
      | ok zs =>
        rw [hr] at h
        simp only [Except.map] at h
        cases h
        simp [ih zs hr]

/-- An input consisting only of whitespace trims to the empty string. -/
theorem jsTrim_eq_empty (u : String) (h : ∀ c ∈ u.data, jsWhitespace c = true) :
    jsTrim u = "" := by
  have h1 : u.data.dropWhile jsWhitespace = [] := List.dropWhile_eq_nil_iff.mpr h
  unfold jsTrim
  rw [h1]
  rfl

/-- The three stage instructions are pairwise distinct strings. -/
theorem instructions_distinct :
    INITIAL_SYSTEM_INSTRUCTION ≠ REFINEMENT_SYSTEM_INSTRUCTION ∧
    INITIAL_SYSTEM_INSTRUCTION ≠ SYNTHESIZER_SYSTEM_INSTRUCTION ∧
    REFINEMENT_SYSTEM_INSTRUCTION ≠ SYNTHESIZER_SYSTEM_INSTRUCTION := by
  refine ⟨?_, ?_, ?_⟩ <;> decide

/-- On a non-blank input, the handler appends the user turn, snapshots the
prior history, runs the pipeline on the snapshot and appends either the
final text or the fixed error notice. -/
theorem handleSubmit_run (gen : Nat → GenRequest → Except ServiceError String)
    (messages : List Message) (userInput : String) (hu : ¬ jsTrim userInput = "") :
    handleSubmit gen messages userInput =
      match runPipeline gen (messages.map toContent) userInput with
      | (Except.error _, trace) =>
        ⟨(messages ++ [⟨"user", [⟨userInput⟩]⟩]) ++ [errorFallbackMessage], trace, true⟩
      | (Except.ok finalResponseText, trace) =>
        ⟨(messages ++ [⟨"user", [⟨userInput⟩]⟩]) ++ [⟨"model", [⟨finalResponseText⟩]⟩],
         trace, false⟩ := by
  unfold handleSubmit
  rw [if_neg hu]
  simp only [List.dropLast_concat]

/-- Complete case analysis of a non-blank submission: either the stage-1 join
failed and only the four initial requests were issued, or it produced the
initial answers and the stage-2 join failed after the four refinement
requests, or both joins succeeded and the synthesis call decided the run. -/
theorem handleSubmit_cases (gen : Nat → GenRequest → Except ServiceError String)
    (messages : List Message) (userInput : String) (hu : ¬ jsTrim userInput = "") :
    (∃ e, joinAll (runCalls gen 0 (initialReqs (messages.map toContent) userInput))
        = Except.error e ∧
      handleSubmit gen messages userInput =
        ⟨(messages ++ [⟨"user", [⟨userInput⟩]⟩]) ++ [errorFallbackMessage],
         initialReqs (messages.map toContent) userInput, true⟩)
    ∨ (∃ answers,
        joinAll (runCalls gen 0 (initialReqs (messages.map toContent) userInput))
          = Except.ok answers ∧
        ((∃ e, joinAll (runCalls gen 4
              (refinementReqs (messages.map toContent) userInput answers))
            = Except.error e ∧
          handleSubmit gen messages userInput =
            ⟨(messages ++ [⟨"user", [⟨userInput⟩]⟩]) ++ [errorFallbackMessage],
             initialReqs (messages.map toContent) userInput
               ++ refinementReqs (messages.map toContent) userInput answers, true⟩)
         ∨ (∃ refined,
             joinAll (runCalls gen 4
                 (refinementReqs (messages.map toContent) userInput answers))
               = Except.ok refined ∧
             ((∃ e, gen 8 (synthesizerReq (messages.map toContent) userInput refined)
                  = Except.error e ∧
               handleSubmit gen messages userInput =
                 ⟨(messages ++ [⟨"user", [⟨userInput⟩]⟩]) ++ [errorFallbackMessage],
                  initialReqs (messages.map toContent) userInput
                    ++ refinementReqs (messages.map toContent) userInput answers
                    ++ [synthesizerReq (messages.map toContent) userInput refined], true⟩)
              ∨ (∃ s, gen 8 (synthesizerReq (messages.map toContent) userInput refined)
                   = Except.ok s ∧
                 handleSubmit gen messages userInput =
                   ⟨(messages ++ [⟨"user", [⟨userInput⟩]⟩]) ++ [⟨"model", [⟨s⟩]⟩],
                    initialReqs (messages.map toContent) userInput
                      ++ refinementReqs (messages.map toContent) userInput answers
                      ++ [synthesizerReq (messages.map toContent) userInput refined],
                    false⟩))))) := by
  rw [handleSubmit_run gen messages userInput hu]
  cases h1 : joinAll (runCalls gen 0 (initialReqs (messages.map toContent) userInput)) with
  | error e =>
    left
    exact ⟨e, rfl, by simp only [runPipeline, h1]⟩
  | ok answers =>
    right
    refine ⟨answers, rfl, ?_⟩
    cases h2 : joinAll (runCalls gen 4
        (refinementReqs (messages.map toContent) userInput answers)) with
    | error e =>
      left
      exact ⟨e, rfl, by simp only [runPipeline, h1, h2]⟩
    | ok refined =>
      right
      refine ⟨refined, rfl, ?_⟩
      cases h3 : gen 8 (synthesizerReq (messages.map toContent) userInput refined) with
      | error e =>
        left
        exact ⟨e, rfl, by simp only [runPipeline, h1, h2, h3]⟩
      | ok s =>
        right
        exact ⟨s, rfl, by simp only [runPipeline, h1, h2, h3]⟩

/-- Sample all-whitespace input used by concrete witnesses. -/
def blankInput : String := " "

/-- C9: a submission whose text is empty or consists only of whitespace is a
no-op: the message list is unchanged, no request is issued to the generation
service, and the run is not marked failed. -/
theorem blank_input_is_noop (gen : Nat → GenRequest → Except ServiceError String)
    (messages : List Message) (userInput : String)
    (h : ∀ c ∈ userInput.data, jsWhitespace c = true) :
    handleSubmit gen messages userInput = ⟨messages, [], false⟩ := by
  unfold handleSubmit
  rw [if_pos (jsTrim_eq_empty userInput h)]

/-- Witness for the C9 theorem at a concrete all-whitespace input. -/
theorem blank_input_is_noop_witness :
    (∀ c ∈ blankInput.data, jsWhitespace c = true) ∧
      handleSubmit failGen [] blankInput = ⟨[], [], false⟩ :=
  ⟨by decide, blank_input_is_noop failGen [] blankInput (by decide)⟩

/-- C2 counterexample: when every service call fails, the handler still
appends a fabricated Agent turn carrying the fixed apology text to the
history, so on failure the caller does not merely receive an error signal
and the history does not stay free of appended turns. -/
theorem failure_appends_fabricated_turn_cex :
    (handleSubmit failGen [] sampleQuery).failed = true ∧
    (handleSubmit failGen [] sampleQuery).messages
      = [⟨"user", [⟨sampleQuery⟩]⟩, errorFallbackMessage] ∧
    errorFallbackMessage
      = ⟨"model", [⟨"Sorry, I encountered an error. Please try again."⟩]⟩ :=
  ⟨rfl, rfl, rfl⟩

/-- C2 amended: when any stage of a run fails, no partial initial or refined
answer is written into the history — the only turns appended are the user
query turn and one fixed generic error-notice turn whose text is independent
of every service response. -/
theorem failure_appends_only_generic_notice
    (gen : Nat → GenRequest → Except ServiceError String)
    (messages : List Message) (userInput : String)
    (hfail : (handleSubmit gen messages userInput).failed = true) :
    (handleSubmit gen messages userInput).messages
      = messages ++ [⟨"user", [⟨userInput⟩]⟩, errorFallbackMessage] := by
  by_cases hu : jsTrim userInput = ""
  · exfalso
    have h0 : handleSubmit gen messages userInput = ⟨messages, [], false⟩ := by
      unfold handleSubmit
      rw [if_pos hu]
    rw [h0] at hfail
    exact Bool.false_ne_true hfail
  · rcases handleSubmit_cases gen messages userInput hu with
      ⟨e, h1, hr⟩ | ⟨answers, h1, ⟨e, h2, hr⟩ | ⟨refined, h2, ⟨e, h3, hr⟩ | ⟨s, h3, hr⟩⟩⟩
    · rw [hr]
      simp
    · rw [hr]
      simp
    · rw [hr]
      simp
    · rw [hr] at hfail
      simp at hfail

/-- Witness for the amended C2 theorem on a concrete failing run. -/
theorem failure_generic_notice_witness :
    (handleSubmit failGen [] sampleQuery2).failed = true ∧
    (handleSubmit failGen [] sampleQuery2).messages
      = [⟨"user", [⟨sampleQuery2⟩]⟩, errorFallbackMessage] :=
  ⟨rfl, failure_appends_only_generic_notice failGen [] sampleQuery2 rfl⟩

/-- C1: the stage-2 refinement prompt built for agent i embeds the literal
text of its own initial answer under the own-answer tag (the text
"My initial response was"), followed by exactly the three other initial
answers in ascending index order with i excluded, each under a numbered
other-agents slot. -/
theorem refinement_prompt_own_and_others (h : List Content) (u a0 a1 a2 a3 : String) :
    (∀ own o1 o2 o3 : String, refinementContext own [o1, o2, o3] =
      "My initial response was: \"" ++ own ++
      "\". The other agents responded with: 1. \"" ++ o1 ++
      "\" 2. \"" ++ o2 ++
      "\" 3. \"" ++ o3 ++
      "\". Based on this context, critically re-evaluate and provide a new, improved response to the original query.")
    ∧ refinementReqs h u [a0, a1, a2, a3] =
      [⟨MODEL_NAME, h ++ [⟨"user", [⟨u ++ "\n\n---INTERNAL CONTEXT---\n" ++ refinementContext a0 [a1, a2, a3]⟩]⟩], REFINEMENT_SYSTEM_INSTRUCTION⟩,
       ⟨MODEL_NAME, h ++ [⟨"user", [⟨u ++ "\n\n---INTERNAL CONTEXT---\n" ++ refinementContext a1 [a0, a2, a3]⟩]⟩], REFINEMENT_SYSTEM_INSTRUCTION⟩,
       ⟨MODEL_NAME, h ++ [⟨"user", [⟨u ++ "\n\n---INTERNAL CONTEXT---\n" ++ refinementContext a2 [a0, a1, a3]⟩]⟩], REFINEMENT_SYSTEM_INSTRUCTION⟩,
       ⟨MODEL_NAME, h ++ [⟨"user", [⟨u ++ "\n\n---INTERNAL CONTEXT---\n" ++ refinementContext a3 [a0, a1, a2]⟩]⟩], REFINEMENT_SYSTEM_INSTRUCTION⟩] :=
  ⟨fun _ _ _ _ => rfl, rfl⟩

/-- Any member of the stage-1 batch is the one shared initial request. -/
theorem mem_initialReqs {req : GenRequest} {h : List Content} {u : String}
    (hm : req ∈ initialReqs h u) :
    req = ⟨MODEL_NAME, h ++ [currentUserTurn u], INITIAL_SYSTEM_INSTRUCTION⟩ := by
  have he : initialReqs h u
      = List.replicate 4 ⟨MODEL_NAME, h ++ [currentUserTurn u], INITIAL_SYSTEM_INSTRUCTION⟩ := rfl
  rw [he] at hm
  exact List.eq_of_mem_replicate hm

/-- Any member of the stage-2 batch is a refinement request for some indexed
initial answer, excluding itself via `otherAnswersAt`. -/
theorem mem_refinementReqs {req : GenRequest} {h : List Content} {u : String}
    {answers : List String} (hm : req ∈ refinementReqs h u answers) :
    req.model = MODEL_NAME ∧ req.systemInstruction = REFINEMENT_SYSTEM_INSTRUCTION ∧
    ∃ p ∈ answers.enum,
      req.contents = h ++ [⟨"user", [⟨u ++ "\n\n---INTERNAL CONTEXT---\n" ++
        refinementContext p.2 (otherAnswersAt answers p.1)⟩]⟩] := by
  simp only [refinementReqs, List.mem_map] at hm
  obtain ⟨p, hp, heq⟩ := hm
  subst heq
  exact ⟨rfl, rfl, ⟨p, hp, rfl⟩⟩

/-- C4: every run issues exactly 4 stage-1 requests, all carrying identical
contents and an identical system instruction (the batch is a 4-fold
replicate of one request), and exactly 4 stage-2 requests, the i-th of
which references as other answers exactly the three answers of the other
agents in ascending index order — never its own. -/
theorem fanout_shape (h : List Content) (u a0 a1 a2 a3 : String) :
    initialReqs h u
      = List.replicate 4 ⟨MODEL_NAME, h ++ [currentUserTurn u], INITIAL_SYSTEM_INSTRUCTION⟩
    ∧ (refinementReqs h u [a0, a1, a2, a3]).length = 4
    ∧ otherAnswersAt [a0, a1, a2, a3] 0 = [a1, a2, a3]
    ∧ otherAnswersAt [a0, a1, a2, a3] 1 = [a0, a2, a3]
    ∧ otherAnswersAt [a0, a1, a2, a3] 2 = [a0, a1, a3]
    ∧ otherAnswersAt [a0, a1, a2, a3] 3 = [a0, a1, a2]
    ∧ (∀ gen messages, ¬ jsTrim u = "" →
        ∃ rest, (handleSubmit gen messages u).trace
          = initialReqs (messages.map toContent) u ++ rest)
    ∧ (∀ gen answers,
        joinAll (runCalls gen 0 (initialReqs h u)) = Except.ok answers →
        answers.length = 4 ∧ (refinementReqs h u answers).length = 4) := by
  refine ⟨rfl, rfl, rfl, rfl, rfl, rfl, ?_, ?_⟩
  · intro gen messages hu
    rcases handleSubmit_cases gen messages u hu with
      ⟨e, h1, hr⟩ | ⟨answers, h1, ⟨e, h2, hr⟩ | ⟨refined, h2, ⟨e, h3, hr⟩ | ⟨s, h3, hr⟩⟩⟩
    · exact ⟨[], by rw [hr]; simp⟩
    · exact ⟨refinementReqs (messages.map toContent) u answers, by rw [hr]⟩
    · exact ⟨refinementReqs (messages.map toContent) u answers
          ++ [synthesizerReq (messages.map toContent) u refined], by rw [hr]; simp⟩
    · exact ⟨refinementReqs (messages.map toContent) u answers
          ++ [synthesizerReq (messages.map toContent) u refined], by rw [hr]; simp⟩
  · intro gen answers hjoin
    have h4 : answers.length = 4 := by
      have hlen := joinAll_ok_length _ _ hjoin
      rw [hlen]
      simp [runCalls, initialReqs]
    refine ⟨h4, ?_⟩
    simp [refinementReqs, h4]

/-- C5: the stage-3 synthesis prompt is exactly the fixed template around the
four refined answers in their stage-2 index order 0..3 and nothing else (in
particular it embeds no initial answer), and every run reaching the
synthesis stage issues as its last request the synthesis request built from
the complete 4-element list of stage-2 results, never fewer. -/
theorem synthesis_prompt_embeds_refined (h : List Content) (u r0 r1 r2 r3 : String) :
    synthesizerContext [r0, r1, r2, r3] =
      "Here are the four refined responses to the user\x27s query. Your task is to synthesize them into the best single, final answer.\n\nRefined Response 1:\n\"" ++ r0 ++
      "\"\n\nRefined Response 2:\n\"" ++ r1 ++
      "\"\n\nRefined Response 3:\n\"" ++ r2 ++
      "\"\n\nRefined Response 4:\n\"" ++ r3 ++ "\""
    ∧ synthesizerReq h u [r0, r1, r2, r3] =
      ⟨MODEL_NAME,
       h ++ [⟨"user", [⟨u ++ "\n\n---INTERNAL CONTEXT---\n" ++
         synthesizerContext [r0, r1, r2, r3]⟩]⟩],
       SYNTHESIZER_SYSTEM_INSTRUCTION⟩
    ∧ (∀ gen messages answers refined, ¬ jsTrim u = "" →
        joinAll (runCalls gen 0 (initialReqs (messages.map toContent) u))
          = Except.ok answers →
        joinAll (runCalls gen 4 (refinementReqs (messages.map toContent) u answers))
          = Except.ok refined →
        refined.length = 4 ∧
        (handleSubmit gen messages u).trace.getLast?
          = some (synthesizerReq (messages.map toContent) u refined)) := by
  refine ⟨rfl, rfl, ?_⟩
  intro gen messages answers refined hu hj1 hj2
  have h4 : answers.length = 4 := by
    have hlen := joinAll_ok_length _ _ hj1
    rw [hlen]
    simp [runCalls, initialReqs]
  have hlen2 : refined.length = 4 := by
    have hlen := joinAll_ok_length _ _ hj2
    rw [hlen]
    simp [runCalls, refinementReqs, h4]
  refine ⟨hlen2, ?_⟩
  rcases handleSubmit_cases gen messages u hu with
    ⟨e, h1, hr⟩ | ⟨answers', h1, ⟨e, h2, hr⟩ | ⟨refined', h2, ⟨e, h3, hr⟩ | ⟨s, h3, hr⟩⟩⟩
  · rw [hj1] at h1
    simp at h1
  · rw [hj1] at h1
    injection h1 with hans
    subst hans
    rw [hj2] at h2
    simp at h2
  · rw [hj1] at h1
    injection h1 with hans
    subst hans
    rw [hj2] at h2
    injection h2 with href
    subst href
    rw [hr]
    simp
  · rw [hj1] at h1
    injection h1 with hans
    subst hans
    rw [hj2] at h2
    injection h2 with href
    subst href
    rw [hr]
    simp

/-- C6: stages are strictly sequential behind join barriers: if the stage-1
join fails the trace is exactly the four initial requests and no stage-2 or
synthesis request is ever issued; if the stage-2 join fails the trace is
exactly the stage-1 and stage-2 requests and the synthesis call is never
issued; conversely a refinement request in the trace implies the stage-1
join succeeded and a synthesis request implies both joins succeeded. -/
theorem stage_failure_stops_pipeline
    (gen : Nat → GenRequest → Except ServiceError String)
    (messages : List Message) (userInput : String) (hu : ¬ jsTrim userInput = "") :
    (Except.isOk (joinAll (runCalls gen 0
        (initialReqs (messages.map toContent) userInput))) = false →
      (handleSubmit gen messages userInput).trace
        = initialReqs (messages.map toContent) userInput
      ∧ ∀ req ∈ (handleSubmit gen messages userInput).trace,
          req.systemInstruction = INITIAL_SYSTEM_INSTRUCTION)
    ∧ (∀ answers,
        joinAll (runCalls gen 0 (initialReqs (messages.map toContent) userInput))
          = Except.ok answers →
        Except.isOk (joinAll (runCalls gen 4
            (refinementReqs (messages.map toContent) userInput answers))) = false →
        (handleSubmit gen messages userInput).trace
          = initialReqs (messages.map toContent) userInput
            ++ refinementReqs (messages.map toContent) userInput answers
        ∧ ∀ req ∈ (handleSubmit gen messages userInput).trace,
            req.systemInstruction ≠ SYNTHESIZER_SYSTEM_INSTRUCTION)
    ∧ (∀ req ∈ (handleSubmit gen messages userInput).trace,
        req.systemInstruction = REFINEMENT_SYSTEM_INSTRUCTION →
        Except.isOk (joinAll (runCalls gen 0
            (initialReqs (messages.map toContent) userInput))) = true)
    ∧ (∀ req ∈ (handleSubmit gen messages userInput).trace,
        req.systemInstruction = SYNTHESIZER_SYSTEM_INSTRUCTION →
        ∃ answers,
          joinAll (runCalls gen 0 (initialReqs (messages.map toContent) userInput))
            = Except.ok answers ∧
          Except.isOk (joinAll (runCalls gen 4
              (refinementReqs (messages.map toContent) userInput answers))) = true) := by
  rcases handleSubmit_cases gen messages userInput hu with
    ⟨e, h1, hr⟩ | ⟨answers, h1, ⟨e, h2, hr⟩ | ⟨refined, h2, ⟨e, h3, hr⟩ | ⟨s, h3, hr⟩⟩⟩
  · refine ⟨?_, ?_, ?_, ?_⟩
    · intro _
      refine ⟨by rw [hr], ?_⟩
      intro req hm
      rw [hr] at hm
      rw [mem_initialReqs hm]
    · intro answers h1'
      rw [h1] at h1'
      simp at h1'
    · intro req hm hins
      rw [hr] at hm
      rw [mem_initialReqs hm] at hins
      exact absurd hins instructions_distinct.1
    · intro req hm hins
      rw [hr] at hm
      rw [mem_initialReqs hm] at hins
      exact absurd hins instructions_distinct.2.1
  · refine ⟨?_, ?_, ?_, ?_⟩
    · intro hfalse
      rw [h1] at hfalse
      simp [Except.isOk, Except.toBool] at hfalse
    · intro answers' h1' h2'
      rw [h1] at h1'
      injection h1' with hans
      subst hans
      refine ⟨by rw [hr], ?_⟩
      intro req hm
      rw [hr] at hm
      rcases List.mem_append.mp hm with hm1 | hm2
      · rw [mem_initialReqs hm1]
        exact instructions_distinct.2.1
      · rw [(mem_refinementReqs hm2).2.1]
        exact instructions_distinct.2.2
    · intro req hm hins
      rw [h1]
      rfl
    · intro req hm hins
      rw [hr] at hm
      rcases List.mem_append.mp hm with hm1 | hm2
      · rw [mem_initialReqs hm1] at hins
        exact absurd hins instructions_distinct.2.1
      · rw [(mem_refinementReqs hm2).2.1] at hins
        exact absurd hins instructions_distinct.2.2
  · refine ⟨?_, ?_, ?_, ?_⟩
    · intro hfalse
      rw [h1] at hfalse
      simp [Except.isOk, Except.toBool] at hfalse
    · intro answers' h1' h2'
      rw [h1] at h1'
      injection h1' with hans
      subst hans
      rw [h2] at h2'
      simp [Except.isOk, Except.toBool] at h2'
    · intro req hm hins
      rw [h1]
      rfl
    · intro req hm hins
      exact ⟨answers, h1, by rw [h2]; rfl⟩
  · refine ⟨?_, ?_, ?_, ?_⟩
    · intro hfalse
      rw [h1] at hfalse
      simp [Except.isOk, Except.toBool] at hfalse
    · intro answers' h1' h2'
      rw [h1] at h1'
      injection h1' with hans
      subst hans
      rw [h2] at h2'
      simp [Except.isOk, Except.toBool] at h2'
    · intro req hm hins
      rw [h1]
      rfl
    · intro req hm hins
      exact ⟨answers, h1, by rw [h2]; rfl⟩

/-- C3: pipeline shape is deterministic: with a mocked client answering the
nine calls of a run with the fixed texts I0..I3, R0..R3, S, a successful
run appends the user query turn plus exactly one Agent turn whose text is
exactly S, and no intermediate text I0..I3, R0..R3 occurs as a turn text
anywhere in the resulting history, provided it did not already occur in the
prior history and differs from the query and the final text. -/
theorem mocked_pipeline_appends_exactly_final
    (messages : List Message) (u i0 i1 i2 i3 r0 r1 r2 r3 s : String)
    (hu : ¬ jsTrim u = "") :
    (handleSubmit (mockGen [i0, i1, i2, i3, r0, r1, r2, r3, s]) messages u).messages
      = messages ++ [⟨"user", [⟨u⟩]⟩, ⟨"model", [⟨s⟩]⟩]
    ∧ (handleSubmit (mockGen [i0, i1, i2, i3, r0, r1, r2, r3, s]) messages u).failed = false
    ∧ (∀ t ∈ ([i0, i1, i2, i3, r0, r1, r2, r3] : List String),
        t ∉ historyTexts messages → ¬ t = u → ¬ t = s →
        t ∉ historyTexts
          (handleSubmit (mockGen [i0, i1, i2, i3, r0, r1, r2, r3, s]) messages u).messages) := by
  have hmain :
      (handleSubmit (mockGen [i0, i1, i2, i3, r0, r1, r2, r3, s]) messages u).messages
        = messages ++ [⟨"user", [⟨u⟩]⟩, ⟨"model", [⟨s⟩]⟩] := by
    rw [handleSubmit_run _ messages u hu]
    show ((messages ++ [⟨"user", [⟨u⟩]⟩]) ++ [⟨"model", [⟨s⟩]⟩] : List Message) = _
    simp
  have hfail :
      (handleSubmit (mockGen [i0, i1, i2, i3, r0, r1, r2, r3, s]) messages u).failed
        = false := by
    rw [handleSubmit_run _ messages u hu]
    rfl
  refine ⟨hmain, hfail, ?_⟩
  intro t ht hnot hnu hns
  rw [hmain]
  have hht : historyTexts (messages ++ [⟨"user", [⟨u⟩]⟩, ⟨"model", [⟨s⟩]⟩])
      = historyTexts messages ++ [u, s] := by
    simp [historyTexts]
  rw [hht]
  intro hmem
  rcases List.mem_append.mp hmem with hmem1 | hmem2
  · exact hnot hmem1
  · simp only [List.mem_cons, List.not_mem_nil, or_false] at hmem2
    rcases hmem2 with h | h
    · exact hnu h
    · exact hns h

/-- C7: under the completion-client contract that a successful call never
returns empty text, every successful run on a valid (non-blank) query
appends the user query turn plus exactly one Agent (model) turn — no more
and no fewer — and that turn carries non-empty text. -/
theorem success_appends_one_agent_turn
    (gen : Nat → GenRequest → Except ServiceError String)
    (messages : List Message) (userInput : String)
    (hgen : ∀ n req s, gen n req = Except.ok s → ¬ s = "")
    (hu : ¬ jsTrim userInput = "")
    (hok : (handleSubmit gen messages userInput).failed = false) :
    ∃ finalText, ¬ finalText = "" ∧
      (handleSubmit gen messages userInput).messages
        = messages ++ [⟨"user", [⟨userInput⟩]⟩, ⟨"model", [⟨finalText⟩]⟩]
      ∧ modelTurnCount (handleSubmit gen messages userInput).messages
        = modelTurnCount messages + 1 := by
  rcases handleSubmit_cases gen messages userInput hu with
    ⟨e, h1, hr⟩ | ⟨answers, h1, ⟨e, h2, hr⟩ | ⟨refined, h2, ⟨e, h3, hr⟩ | ⟨s, h3, hr⟩⟩⟩
  · rw [hr] at hok
    simp at hok
  · rw [hr] at hok
    simp at hok
  · rw [hr] at hok
    simp at hok
  · refine ⟨s, hgen 8 _ s h3, ?_, ?_⟩
    · rw [hr]
      simp
    · rw [hr]
      simp [modelTurnCount, List.filter_append]

/-- C10: every request of a run, in all three stages, carries as the prefix
of its contents the history snapshot taken at run start — every prior turn
with role and parts unchanged via `toContent` — followed by exactly one new
user turn whose text begins with the literal query text; the prefix is the
same list for every call of the run. -/
theorem requests_share_history_prefix
    (gen : Nat → GenRequest → Except ServiceError String)
    (messages : List Message) (userInput : String) (req : GenRequest)
    (hm : req ∈ (handleSubmit gen messages userInput).trace) :
    req.model = MODEL_NAME ∧
    ∃ tail, req.contents
      = messages.map toContent ++ [⟨"user", [⟨userInput ++ tail⟩]⟩] := by
  by_cases hu : jsTrim userInput = ""
  · exfalso
    have h0 : handleSubmit gen messages userInput = ⟨messages, [], false⟩ := by
      unfold handleSubmit
      rw [if_pos hu]
    rw [h0] at hm
    simp at hm
  · have hinit : ∀ r, r ∈ initialReqs (messages.map toContent) userInput →
        r.model = MODEL_NAME ∧
        ∃ tail, r.contents
          = messages.map toContent ++ [⟨"user", [⟨userInput ++ tail⟩]⟩] := by
      intro r hr1
      rw [mem_initialReqs hr1]
      exact ⟨rfl, "", by simp [currentUserTurn, String.append_empty]⟩
    have hrefine : ∀ r answers,
        r ∈ refinementReqs (messages.map toContent) userInput answers →
        r.model = MODEL_NAME ∧
        ∃ tail, r.contents
          = messages.map toContent ++ [⟨"user", [⟨userInput ++ tail⟩]⟩] := by
      intro r answers hr2
      obtain ⟨hmod, hins, p, hp, hc⟩ := mem_refinementReqs hr2
      refine ⟨hmod,
        "\n\n---INTERNAL CONTEXT---\n" ++ refinementContext p.2 (otherAnswersAt answers p.1),
        ?_⟩
      rw [hc, String.append_assoc]
    have hsynth : ∀ refined,
        (synthesizerReq (messages.map toContent) userInput refined).model = MODEL_NAME ∧
        ∃ tail, (synthesizerReq (messages.map toContent) userInput refined).contents
          = messages.map toContent ++ [⟨"user", [⟨userInput ++ tail⟩]⟩] := by
      intro refined
      refine ⟨rfl, "\n\n---INTERNAL CONTEXT---\n" ++ synthesizerContext refined, ?_⟩
      show (messages.map toContent) ++ [⟨"user",
          [⟨userInput ++ "\n\n---INTERNAL CONTEXT---\n" ++ synthesizerContext refined⟩]⟩] = _
      rw [String.append_assoc]
    rcases handleSubmit_cases gen messages userInput hu with
      ⟨e, h1, hr⟩ | ⟨answers, h1, ⟨e, h2, hr⟩ | ⟨refined, h2, ⟨e, h3, hr⟩ | ⟨s, h3, hr⟩⟩⟩
    · rw [hr] at hm
      exact hinit req hm
    · rw [hr] at hm
      rcases List.mem_append.mp hm with hm1 | hm2
      · exact hinit req hm1
      · exact hrefine req answers hm2
    · rw [hr] at hm
      rcases List.mem_append.mp hm with hm12 | hm3
      · rcases List.mem_append.mp hm12 with hm1 | hm2
        · exact hinit req hm1
        · exact hrefine req answers hm2
      · rw [List.mem_singleton.mp hm3]
        exact hsynth refined
    · rw [hr] at hm
      rcases List.mem_append.mp hm with hm12 | hm3
      · rcases List.mem_append.mp hm12 with hm1 | hm2
        · exact hinit req hm1
        · exact hrefine req answers hm2
      · rw [List.mem_singleton.mp hm3]
        exact hsynth refined

/-- Mocked stage-1 reply of agent 0. -/
def mockI0 : String := "I0"

/-- Mocked stage-1 reply of agent 1. -/
def mockI1 : String := "I1"

/-- Mocked stage-1 reply of agent 2. -/
def mockI2 : String := "I2"

/-- Mocked stage-1 reply of agent 3. -/
def mockI3 : String := "I3"

/-- Mocked stage-2 reply of agent 0. -/
def mockR0 : String := "R0"

/-- Mocked stage-2 reply of agent 1. -/
def mockR1 : String := "R1"

/-- Mocked stage-2 reply of agent 2. -/
def mockR2 : String := "R2"

/-- Mocked stage-2 reply of agent 3. -/
def mockR3 : String := "R3"

/-- Mocked synthesis reply. -/
def mockFinal : String := "Final"

/-- The full nine-call mocked response list of the example of the spec. -/
def mockList : List String :=
  [mockI0, mockI1, mockI2, mockI3, mockR0, mockR1, mockR2, mockR3, mockFinal]

/-- Witness for the C3 theorem at the concrete mocked run of the spec. -/
theorem mocked_pipeline_witness :
    ¬ jsTrim sampleQuery = "" ∧
    (handleSubmit (mockGen mockList) [] sampleQuery).messages
      = [⟨"user", [⟨sampleQuery⟩]⟩, ⟨"model", [⟨mockFinal⟩]⟩] :=
  ⟨by decide, by
    have h := (mocked_pipeline_appends_exactly_final [] sampleQuery
      mockI0 mockI1 mockI2 mockI3 mockR0 mockR1 mockR2 mockR3 mockFinal (by decide)).1
    simpa using h⟩

/-- Witness for the C4 theorem: a concrete successful stage-1 join yields
four answers and four refinement requests. -/
theorem fanout_shape_witness :
    ([sampleReply, sampleReply, sampleReply, sampleReply] : List String).length = 4 ∧
    (refinementReqs [] sampleQuery
      [sampleReply, sampleReply, sampleReply, sampleReply]).length = 4 :=
  (fanout_shape [] sampleQuery sampleReply sampleReply sampleReply sampleReply).2.2.2.2.2.2.2
    okGen [sampleReply, sampleReply, sampleReply, sampleReply] rfl

/-- Witness for the C5 theorem on the concrete mocked run. -/
theorem synthesis_prompt_witness :
    ([mockR0, mockR1, mockR2, mockR3] : List String).length = 4 ∧
    (handleSubmit (mockGen mockList) [] sampleQuery).trace.getLast?
      = some (synthesizerReq [] sampleQuery [mockR0, mockR1, mockR2, mockR3]) :=
  (synthesis_prompt_embeds_refined [] sampleQuery mockR0 mockR1 mockR2 mockR3).2.2
    (mockGen mockList) [] [mockI0, mockI1, mockI2, mockI3]
    [mockR0, mockR1, mockR2, mockR3] (by decide) rfl rfl

/-- Witness for the C6 theorem: when every call fails, the trace is exactly
the four initial requests. -/
theorem stage_failure_witness :
    (handleSubmit failGen [] sampleQuery).trace = initialReqs [] sampleQuery :=
  ((stage_failure_stops_pipeline failGen [] sampleQuery (by decide)).1 rfl).1

/-- Witness for the C7 theorem on a concrete successful run. -/
theorem success_one_turn_witness :
    ¬ jsTrim sampleQuery = "" ∧
    (∃ finalText, ¬ finalText = "" ∧
      (handleSubmit okGen [] sampleQuery).messages
        = [⟨"user", [⟨sampleQuery⟩]⟩, ⟨"model", [⟨finalText⟩]⟩]
      ∧ modelTurnCount (handleSubmit okGen [] sampleQuery).messages
        = modelTurnCount [] + 1) :=
  ⟨by decide, success_appends_one_agent_turn okGen [] sampleQuery
    (fun _ _ _ h => by cases h; decide) (by decide) rfl⟩

/-- The shared stage-1 request of a first-message run on the sample query. -/
def sampleInitialReq : GenRequest :=
  ⟨MODEL_NAME, [currentUserTurn sampleQuery], INITIAL_SYSTEM_INSTRUCTION⟩

/-- Witness for the C10 theorem at a concrete issued request. -/
theorem requests_prefix_witness :
    sampleInitialReq ∈ (handleSubmit failGen [] sampleQuery).trace ∧
    (sampleInitialReq.model = MODEL_NAME ∧
      ∃ tail, sampleInitialReq.contents
        = ([] : List Message).map toContent ++ [⟨"user", [⟨sampleQuery ++ tail⟩]⟩]) := by
  have hm : sampleInitialReq ∈ (handleSubmit failGen [] sampleQuery).trace := by
    show sampleInitialReq ∈ sampleInitialReq :: _
    exact List.mem_cons_self _ _
  exact ⟨hm, requests_share_history_prefix failGen [] sampleQuery sampleInitialReq hm⟩

end MultiAgent
